import Mathlib

/-!
DefaultSceneLayer: effect-trace embedding of the scene-construction routine.

Source: `src/Application/Layers/DefaultSceneLayer.cpp`.

The routine is a straight-line script of calls into the engine (resource manager, scene,
game objects, components, physics, GUI).  None of the callees is part of the file, so every
call is recorded as an uninterpreted event in an effect trace, in program order.  Objects returned
by a call (`Sptr` values) are handles: the n-th handle-returning call of a run returns handle n.
The C++ local variables are Lean `let` bindings, so name resolution is lexical exactly as in the
source (the block-local names `normalMap`, `diffuseMap`, `renderer`, `behaviour` are re-bound).

Float literals are recorded exactly as written, in thousandths: `0.5f` is `500`, `-3.810f` is
`-3810`, `100.0f` is `100000`.  Every float literal of the routine has at most three decimals.
-/

set_option linter.unusedVariables false
set_option linter.dupNamespace false

namespace DefaultSceneLayer

/-! ## Data model -/

/-- Identity of an object returned by an engine call. -/
abbrev Handle := Nat

/-- The `glm::vec3` values of the routine; components are in thousandths. -/
structure vec3 where
  x : Int
  y : Int
  z : Int
  deriving DecidableEq, Repr

/-- The `glm::vec2` values of the routine; components are in thousandths. -/
structure vec2 where
  x : Int
  y : Int
  deriving DecidableEq, Repr

/-- The scalar constructor `glm::vec3(s)`: all three components are `s`. -/
def vec3.splat (s : Int) : vec3 := ⟨s, s, s⟩

/-- The scalar constructor `glm::vec2(s)`: both components are `s`. -/
def vec2.splat (s : Int) : vec2 := ⟨s, s⟩

/-- The vector macros of `Utils/GlmDefines.h` used by the routine (their values are not part of
the file, they are kept symbolic). -/
inductive GlmDefine where
  | ZERO
  | ONE
  | UNIT_X
  | UNIT_Z
  deriving DecidableEq, Repr

/-- The arguments of the `MeshBuilderParam` factory calls. -/
inductive MeshBuilderParam where
  | CreatePlane (a b c : GlmDefine) (size : vec2) (uvScale : Option vec2)
  | CreateIcoSphere (a b : GlmDefine) (tessellation : Nat)
  | CreateCube (a b : GlmDefine)
  deriving DecidableEq, Repr

/-- The template argument of `ResourceManager::CreateAsset<T>`. -/
inductive AssetType where
  | ShaderProgram
  | MeshResource
  | Texture2D
  | Texture1D
  | Texture3D
  | TextureCube
  | Material
  deriving DecidableEq, Repr

/-- The constructor arguments passed through `ResourceManager::CreateAsset<T>(...)`. -/
inductive AssetArgs where
  /-- The map with a `ShaderPartType::Vertex` and a `ShaderPartType::Fragment` entry. -/
  | shaderParts (Vertex : String) (Fragment : String)
  /-- A file name. -/
  | file (path : String)
  /-- A shader program, for `CreateAsset<Material>(shader)`. -/
  | shader (program : Handle)
  /-- No argument, for `CreateAsset<MeshResource>()`. -/
  | none
  deriving DecidableEq, Repr

/-- The value argument of `Material::Set(name, value)`. -/
inductive UniformValue where
  | texture (h : Handle)
  | float (thousandths : Int)
  | int (n : Int)
  | vec (v : vec3)
  deriving DecidableEq, Repr

/-- The template argument of `GameObject::Add<T>()`. -/
inductive ComponentType where
  | SimpleCameraControl
  | RenderComponent
  | RigidBody
  | JumpBehaviour
  | TestComponent
  | RotatingBehaviour
  | TriggerVolume
  | TriggerVolumeEnterBehaviour
  deriving DecidableEq, Repr

/-- The collider classes whose `Create` factory the routine calls. -/
inductive ColliderType where
  | BoxCollider
  | CylinderCollider
  deriving DecidableEq, Repr

/-- Texture filter and wrap enumerators used by the routine. -/
inductive TextureEnum where
  | MinFilter_Nearest
  | MagFilter_Nearest
  | WrapMode_ClampToEdge
  deriving DecidableEq, Repr

/-- One call made by the routine, with its arguments and, for a call that returns an object,
the handle it returned. -/
inductive Effect where
  /-- Call `Application::Get()` -/
  | ApplicationGet
  /-- Call `std::filesystem::exists(path)` -/
  | FilesystemExists (path : String)
  /-- Call `app.LoadScene(path)`, the load-from-file overload -/
  | AppLoadSceneFile (path : String)
  /-- Call `ResourceManager::CreateAsset<type>(args)` -/
  | CreateAsset (result : Handle) (type : AssetType) (args : AssetArgs)
  /-- Call `shader->SetDebugName(name)` -/
  | SetDebugName (shader : Handle) (name : String)
  /-- Call `texture->SetMinFilter(f)` -/
  | SetMinFilter (texture : Handle) (f : TextureEnum)
  /-- Call `texture->SetMagFilter(f)` -/
  | SetMagFilter (texture : Handle) (f : TextureEnum)
  /-- Call `texture->SetWrap(w)` -/
  | SetWrap (texture : Handle) (w : TextureEnum)
  /-- Call `std::make_shared<Scene>()` -/
  | MakeScene (result : Handle)
  /-- Call `scene->SetColorLUT(lut)` -/
  | SetColorLUT (scene : Handle) (lut : Handle)
  /-- Assignment `material->Name = name` -/
  | MaterialSetName (material : Handle) (name : String)
  /-- Call `material->Set(uniform, value)` -/
  | MaterialSet (material : Handle) (uniform : String) (value : UniformValue)
  /-- Call `scene->Lights.resize(n)` -/
  | LightsResize (scene : Handle) (n : Nat)
  /-- Assignment `scene->Lights[index].Position = v` -/
  | LightSetPosition (scene : Handle) (index : Nat) (v : vec3)
  /-- Assignment `scene->Lights[index].Color = v` -/
  | LightSetColor (scene : Handle) (index : Nat) (v : vec3)
  /-- Assignment `scene->Lights[index].Range = r` -/
  | LightSetRange (scene : Handle) (index : Nat) (r : Int)
  /-- Call `mesh->AddParam(p)` -/
  | AddParam (mesh : Handle) (p : MeshBuilderParam)
  /-- Call `mesh->GenerateMesh()` -/
  | GenerateMesh (mesh : Handle)
  /-- Call `scene->MainCamera->GetGameObject()->SelfRef()` -/
  | MainCameraGameObject (result : Handle) (scene : Handle)
  /-- Call `object->SetPostion(v)` -/
  | SetPostion (object : Handle) (v : vec3)
  /-- Call `object->LookAt(v)` -/
  | LookAt (object : Handle) (v : vec3)
  /-- Call `object->SetScale(v)` -/
  | SetScale (object : Handle) (v : vec3)
  /-- Call `object->Add<type>()` -/
  | Add (result : Handle) (object : Handle) (type : ComponentType)
  /-- Call `scene->CreateGameObject(name)` -/
  | CreateGameObject (result : Handle) (scene : Handle) (name : String)
  /-- Call `renderer->SetMesh(mesh)` -/
  | SetMesh (renderer : Handle) (mesh : Handle)
  /-- Call `renderer->SetMaterial(material)` -/
  | SetMaterial (renderer : Handle) (material : Handle)
  /-- Call `BoxCollider::Create(v)` or `CylinderCollider::Create(v)` -/
  | ColliderCreate (result : Handle) (type : ColliderType) (v : vec3)
  /-- Call `body->AddCollider(collider)`, on a `RigidBody` or a `TriggerVolume` -/
  | AddCollider (result : Handle) (body : Handle) (collider : Handle)
  /-- Call `collider->SetPosition(v)` -/
  | ColliderSetPosition (collider : Handle) (v : vec3)
  /-- Call `parent->AddChild(child)` -/
  | AddChild (parent : Handle) (child : Handle)
  /-- Assignment `behaviour->RotationSpeed = v` -/
  | SetRotationSpeed (behaviour : Handle) (v : vec3)
  /-- Call `GuiBatcher::SetDefaultTexture(texture)` -/
  | SetDefaultTexture (texture : Handle)
  /-- Call `GuiBatcher::SetDefaultBorderRadius(n)` -/
  | SetDefaultBorderRadius (n : Int)
  /-- Call `ResourceManager::SaveManifest(path)` -/
  | SaveManifest (path : String)
  /-- Call `scene->Save(path)` -/
  | Save (scene : Handle) (path : String)
  /-- Call `app.LoadScene(scene)`, the hand-over of a constructed scene -/
  | AppLoadScene (scene : Handle)
  deriving DecidableEq, Repr

/-- State threaded through a run: the next free handle and the calls made so far, newest first. -/
structure World where
  next : Handle
  log : List Effect

/-- The state at the start of a run. -/
def World.init : World := ⟨0, []⟩

/-- Computations of the routine: explicit state passing over `World`. -/
abbrev M := StateM World

/-- Record a call that returns nothing the routine uses. -/
def call (e : Effect) : M Unit :=
  fun w => ((), { w with log := e :: w.log })

/-- Record a call that returns an object: it gets the next free handle. -/
def callNew (e : Handle → Effect) : M Handle :=
  fun w => (w.next, { next := w.next + 1, log := e w.next :: w.log })

/-- The calls of a run, oldest first. -/
def traceOf (m : M Unit) : List Effect :=
  (m.run World.init).2.log.reverse

/-! ## The engine interface used by the routine -/

/-- Call `ResourceManager::CreateAsset<type>(args)`. -/
def ResourceManager.CreateAsset (type : AssetType) (args : AssetArgs) : M Handle :=
  callNew fun h => .CreateAsset h type args

/-- Call `CreateAsset<ShaderProgram>` with a vertex and a fragment part. -/
def ResourceManager.CreateShaderProgram (Vertex Fragment : String) : M Handle :=
  ResourceManager.CreateAsset .ShaderProgram (.shaderParts Vertex Fragment)

/-- Call `ResourceManager::SaveManifest(path)`. -/
def ResourceManager.SaveManifest (path : String) : M Unit := call (.SaveManifest path)

/-- Call `std::make_shared<Scene>()`. -/
def Scene.make_shared : M Handle := callNew .MakeScene

/-- Call `scene->CreateGameObject(name)`. -/
def Scene.CreateGameObject (scene : Handle) (name : String) : M Handle :=
  callNew fun h => .CreateGameObject h scene name

/-- Call `scene->MainCamera->GetGameObject()->SelfRef()`. -/
def Scene.MainCameraGameObject (scene : Handle) : M Handle :=
  callNew fun h => .MainCameraGameObject h scene

/-- Call `object->Add<type>()`. -/
def GameObject.Add (object : Handle) (type : ComponentType) : M Handle :=
  callNew fun h => .Add h object type

/-- Call `BoxCollider::Create(v)` or `CylinderCollider::Create(v)`. -/
def Collider.Create (type : ColliderType) (v : vec3) : M Handle :=
  callNew fun h => .ColliderCreate h type v

/-- Call `body->AddCollider(collider)`; the call returns an object. -/
def AddCollider (body collider : Handle) : M Handle :=
  callNew fun h => .AddCollider h body collider

/-- Which paths exist on disk, the answer of `std::filesystem::exists`. -/
abbrev FileSystem := String → Bool

/-- Call `std::filesystem::exists(path)`. -/
def filesystem.exists (fs : FileSystem) (path : String) : M Bool :=
  fun w => (fs path, { w with log := .FilesystemExists path :: w.log })

/-- Call `Application::Get()`. -/
def Application.Get : M Unit := call .ApplicationGet

/-! ## The routine -/

set_option maxRecDepth 100000 in
set_option maxHeartbeats 4000000 in
/-- The `else` branch of `_CreateScene` (source lines 98 to 585): build the demo scene, save the
manifest and the scene, hand the scene to the application. -/
def constructScene : M Unit := do
  -- shader programs
  let reflectiveShader ← ResourceManager.CreateShaderProgram
    "shaders/vertex_shaders/basic.glsl" "shaders/fragment_shaders/frag_environment_reflective.glsl"
  call (.SetDebugName reflectiveShader "Reflective")
  let basicShader ← ResourceManager.CreateShaderProgram
    "shaders/vertex_shaders/basic.glsl" "shaders/fragment_shaders/frag_blinn_phong_textured.glsl"
  call (.SetDebugName basicShader "Blinn-phong")
  let invaderShader ← ResourceManager.CreateShaderProgram
    "shaders/vertex_shaders/invader_vert.glsl" "shaders/fragment_shaders/invader_frag.glsl"
  call (.SetDebugName invaderShader "Invader Shader")
  let specShader ← ResourceManager.CreateShaderProgram
    "shaders/vertex_shaders/basic.glsl" "shaders/fragment_shaders/textured_specular.glsl"
  call (.SetDebugName specShader "Textured-Specular")
  let foliageShader ← ResourceManager.CreateShaderProgram
    "shaders/vertex_shaders/foliage.glsl" "shaders/fragment_shaders/screendoor_transparency.glsl"
  call (.SetDebugName foliageShader "Foliage")
  let toonShader ← ResourceManager.CreateShaderProgram
    "shaders/vertex_shaders/basic.glsl" "shaders/fragment_shaders/toon_shading.glsl"
  call (.SetDebugName toonShader "Toon Shader")
  let displacementShader ← ResourceManager.CreateShaderProgram
    "shaders/vertex_shaders/displacement_mapping.glsl"
    "shaders/fragment_shaders/frag_tangentspace_normal_maps.glsl"
  call (.SetDebugName displacementShader "Displacement Mapping")
  let tangentSpaceMapping ← ResourceManager.CreateShaderProgram
    "shaders/vertex_shaders/basic.glsl" "shaders/fragment_shaders/frag_tangentspace_normal_maps.glsl"
  call (.SetDebugName tangentSpaceMapping "Tangent Space Mapping")
  let multiTextureShader ← ResourceManager.CreateShaderProgram
    "shaders/vertex_shaders/vert_multitextured.glsl" "shaders/fragment_shaders/frag_multitextured.glsl"
  call (.SetDebugName multiTextureShader "Multitexturing")
  let assignmentShader ← ResourceManager.CreateShaderProgram
    "shaders/vertex_shaders/assignment_vert.glsl" "shaders/fragment_shaders/assignment_frag.glsl"
  -- meshes
  let monkeyMesh ← ResourceManager.CreateAsset .MeshResource (.file "Monkey.obj")
  let invaderMesh ← ResourceManager.CreateAsset .MeshResource (.file "SpaceInvaderModel.obj")
  -- textures
  let boxTexture ← ResourceManager.CreateAsset .Texture2D (.file "textures/box-diffuse.png")
  let boxSpec ← ResourceManager.CreateAsset .Texture2D (.file "textures/box-specular.png")
  let monkeyTex ← ResourceManager.CreateAsset .Texture2D (.file "textures/monkey-uvMap.png")
  let leafTex ← ResourceManager.CreateAsset .Texture2D (.file "textures/leaves.png")
  let kingMonkTex ← ResourceManager.CreateAsset .Texture2D (.file "textures/kingMonkeyTexture.png")
  let pillarTex ← ResourceManager.CreateAsset .Texture2D (.file "textures/pillarTexture.png")
  let fireTex ← ResourceManager.CreateAsset .Texture2D (.file "textures/fireTexture.png")
  call (.SetMinFilter leafTex .MinFilter_Nearest)
  call (.SetMagFilter leafTex .MagFilter_Nearest)
  -- 1D lookup tables
  let toonLut ← ResourceManager.CreateAsset .Texture1D (.file "luts/toon-1D.png")
  let chillyLut ← ResourceManager.CreateAsset .Texture1D (.file "luts/chilly-1D.png")
  call (.SetWrap toonLut .WrapMode_ClampToEdge)
  -- cubemap and skybox shader
  let testCubemap ← ResourceManager.CreateAsset .TextureCube (.file "cubemaps/ocean/ocean.jpg")
  let skyboxShader ← ResourceManager.CreateShaderProgram
    "shaders/vertex_shaders/skybox_vert.glsl" "shaders/fragment_shaders/skybox_frag.glsl"
  -- the empty scene
  let scene ← Scene.make_shared
  -- colour lookup table
  let lut ← ResourceManager.CreateAsset .Texture3D (.file "luts/cool.CUBE")
  call (.SetColorLUT scene lut)
  -- materials
  let boxMaterial ← ResourceManager.CreateAsset .Material (.shader basicShader)
  call (.MaterialSetName boxMaterial "Box")
  call (.MaterialSet boxMaterial "u_Material.Diffuse" (.texture boxTexture))
  call (.MaterialSet boxMaterial "u_Material.Shininess" (.float 100))
  let monkeyMaterial ← ResourceManager.CreateAsset .Material (.shader reflectiveShader)
  call (.MaterialSetName monkeyMaterial "Monkey")
  call (.MaterialSet monkeyMaterial "u_Material.Diffuse" (.texture monkeyTex))
  call (.MaterialSet monkeyMaterial "u_Material.Shininess" (.float 500))
  let testMaterial ← ResourceManager.CreateAsset .Material (.shader specShader)
  call (.MaterialSetName testMaterial "Box-Specular")
  call (.MaterialSet testMaterial "u_Material.Diffuse" (.texture boxTexture))
  call (.MaterialSet testMaterial "u_Material.Specular" (.texture boxSpec))
  let foliageMaterial ← ResourceManager.CreateAsset .Material (.shader foliageShader)
  call (.MaterialSetName foliageMaterial "Foliage Shader")
  call (.MaterialSet foliageMaterial "u_Material.Diffuse" (.texture leafTex))
  call (.MaterialSet foliageMaterial "u_Material.Shininess" (.float 100))
  call (.MaterialSet foliageMaterial "u_Material.Threshold" (.float 100))
  call (.MaterialSet foliageMaterial "u_WindDirection" (.vec ⟨1000, 1000, 0⟩))
  call (.MaterialSet foliageMaterial "u_WindStrength" (.float 500))
  call (.MaterialSet foliageMaterial "u_VerticalScale" (.float 1000))
  call (.MaterialSet foliageMaterial "u_WindSpeed" (.float 1000))
  let toonMaterial ← ResourceManager.CreateAsset .Material (.shader toonShader)
  call (.MaterialSetName toonMaterial "Toon")
  call (.MaterialSet toonMaterial "u_Material.Diffuse" (.texture boxTexture))
  call (.MaterialSet toonMaterial "s_ToonTerm" (.texture toonLut))
  call (.MaterialSet toonMaterial "u_Material.Shininess" (.float 100))
  call (.MaterialSet toonMaterial "u_Material.Steps" (.int 8))
  let displacementTest ← ResourceManager.CreateAsset .Material (.shader displacementShader)
  let displacementMap ← ResourceManager.CreateAsset .Texture2D (.file "textures/displacement_map.png")
  let normalMap ← ResourceManager.CreateAsset .Texture2D (.file "textures/normal_map.png")
  let diffuseMap ← ResourceManager.CreateAsset .Texture2D (.file "textures/bricks_diffuse.png")
  call (.MaterialSetName displacementTest "Displacement Map")
  call (.MaterialSet displacementTest "u_Material.Diffuse" (.texture diffuseMap))
  call (.MaterialSet displacementTest "s_Heightmap" (.texture displacementMap))
  call (.MaterialSet displacementTest "s_NormalMap" (.texture normalMap))
  call (.MaterialSet displacementTest "u_Material.Shininess" (.float 500))
  call (.MaterialSet displacementTest "u_Scale" (.float 100))
  let normalmapMat ← ResourceManager.CreateAsset .Material (.shader tangentSpaceMapping)
  let normalMap ← ResourceManager.CreateAsset .Texture2D (.file "textures/normal_map.png")
  let diffuseMap ← ResourceManager.CreateAsset .Texture2D (.file "textures/bricks_diffuse.png")
  call (.MaterialSetName normalmapMat "Tangent Space Normal Map")
  call (.MaterialSet normalmapMat "u_Material.Diffuse" (.texture diffuseMap))
  call (.MaterialSet normalmapMat "s_NormalMap" (.texture normalMap))
  call (.MaterialSet normalmapMat "u_Material.Shininess" (.float 500))
  call (.MaterialSet normalmapMat "u_Scale" (.float 100))
  let multiTextureMat ← ResourceManager.CreateAsset .Material (.shader multiTextureShader)
  let sand ← ResourceManager.CreateAsset .Texture2D (.file "textures/terrain/sand.png")
  let grass ← ResourceManager.CreateAsset .Texture2D (.file "textures/terrain/grass.png")
  call (.MaterialSetName multiTextureMat "Multitexturing")
  call (.MaterialSet multiTextureMat "u_Material.DiffuseA" (.texture sand))
  call (.MaterialSet multiTextureMat "u_Material.DiffuseB" (.texture grass))
  call (.MaterialSet multiTextureMat "u_Material.Shininess" (.float 500))
  call (.MaterialSet multiTextureMat "u_Scale" (.float 100))
  let kingMonkeyMat ← ResourceManager.CreateAsset .Material (.shader basicShader)
  call (.MaterialSetName kingMonkeyMat "KingMonkeyMat")
  call (.MaterialSet kingMonkeyMat "u_Material.Diffuse" (.texture kingMonkTex))
  call (.MaterialSet kingMonkeyMat "u_Material.Shininess" (.float 500))
  let pillarMat ← ResourceManager.CreateAsset .Material (.shader basicShader)
  call (.MaterialSetName pillarMat "PillarMat")
  call (.MaterialSet pillarMat "u_Material.Diffuse" (.texture pillarTex))
  call (.MaterialSet pillarMat "u_Material.Shininess" (.float 500))
  let fireMat ← ResourceManager.CreateAsset .Material (.shader basicShader)
  call (.MaterialSetName fireMat "FireMat")
  call (.MaterialSet fireMat "u_Material.Diffuse" (.texture fireTex))
  call (.MaterialSet fireMat "u_Material.Shininess" (.float 500))
  let invaderMat ← ResourceManager.CreateAsset .Material (.shader invaderShader)
  let invaderBlue ← ResourceManager.CreateAsset .Texture2D (.file "textures/InvaderBlueTexture.png")
  let invaderOrange ← ResourceManager.CreateAsset .Texture2D (.file "textures/InvaderOrangeTexture.png")
  let invaderPink ← ResourceManager.CreateAsset .Texture2D (.file "textures/InvaderPinkTexture.png")
  let invaderPurple ← ResourceManager.CreateAsset .Texture2D (.file "textures/InvaderPurpleTexture.png")
  let invaderRed ← ResourceManager.CreateAsset .Texture2D (.file "textures/InvaderRedTexture.png")
  let invaderYellow ← ResourceManager.CreateAsset .Texture2D (.file "textures/InvaderYellowTexture.png")
  call (.MaterialSetName invaderMat "InvaderMat")
  call (.MaterialSet invaderMat "u_Material.Diffuse" (.texture invaderBlue))
  call (.MaterialSet invaderMat "u_Material.Shininess" (.float 500))
  call (.MaterialSet invaderMat "u_InvaderMaterial.blueDiffuse" (.texture invaderBlue))
  call (.MaterialSet invaderMat "u_InvaderMaterial.redDiffuse" (.texture invaderRed))
  call (.MaterialSet invaderMat "u_InvaderMaterial.pinkDiffuse" (.texture invaderPink))
  call (.MaterialSet invaderMat "u_InvaderMaterial.pinkDiffuse" (.texture invaderPink))
  call (.MaterialSet invaderMat "u_InvaderMaterial.purpleDiffuse" (.texture invaderPurple))
  call (.MaterialSet invaderMat "u_InvaderMaterial.yellowDiffuse" (.texture invaderYellow))
  call (.MaterialSet invaderMat "u_InvaderMaterial.orangeDiffuse" (.texture invaderOrange))
  let specularTexture ← ResourceManager.CreateAsset .Texture2D (.file "textures/assignment_specular.png")
  let assignmentMat ← ResourceManager.CreateAsset .Material (.shader assignmentShader)
  call (.MaterialSetName assignmentMat "AssignmentMat")
  call (.MaterialSet assignmentMat "u_Material.Diffuse" (.texture kingMonkTex))
  call (.MaterialSet assignmentMat "u_Material.Specular" (.texture specularTexture))
  call (.MaterialSet assignmentMat "u_Material.Shininess" (.float 500))
  call (.MaterialSet assignmentMat "s_Chilly" (.texture chillyLut))
  let assignmentMatPillar ← ResourceManager.CreateAsset .Material (.shader assignmentShader)
  call (.MaterialSetName assignmentMatPillar "AssignmentMatPillar")
  call (.MaterialSet assignmentMatPillar "u_Material.Diffuse" (.texture pillarTex))
  call (.MaterialSet assignmentMatPillar "u_Material.Specular" (.texture specularTexture))
  call (.MaterialSet assignmentMatPillar "u_Material.Shininess" (.float 500))
  call (.MaterialSet assignmentMatPillar "s_Chilly" (.texture chillyLut))
  let assignmentMatFire ← ResourceManager.CreateAsset .Material (.shader assignmentShader)
  call (.MaterialSetName assignmentMatFire "AssignmentMatFire")
  call (.MaterialSet assignmentMatFire "u_Material.Diffuse" (.texture fireTex))
  call (.MaterialSet assignmentMatFire "u_Material.Specular" (.texture specularTexture))
  call (.MaterialSet assignmentMatFire "u_Material.Shininess" (.float 500))
  call (.MaterialSet assignmentMatFire "s_Chilly" (.texture chillyLut))
  -- lights
  call (.LightsResize scene 1)
  call (.LightSetPosition scene 0 ⟨0, 1000, 3000⟩)
  call (.LightSetColor scene 0 ⟨1000, 1000, 1000⟩)
  call (.LightSetRange scene 0 100000)
  -- generated meshes
  let planeMesh ← ResourceManager.CreateAsset .MeshResource .none
  call (.AddParam planeMesh (.CreatePlane .ZERO .UNIT_Z .UNIT_X (vec2.splat 1000) none))
  call (.GenerateMesh planeMesh)
  let sphere ← ResourceManager.CreateAsset .MeshResource .none
  call (.AddParam sphere (.CreateIcoSphere .ZERO .ONE 5))
  call (.GenerateMesh sphere)
  -- camera
  let camera ← Scene.MainCameraGameObject scene
  call (.SetPostion camera ⟨-3810, 90, 6250⟩)
  call (.LookAt camera ⟨1500, 0, 4000⟩)
  let _ ← GameObject.Add camera .SimpleCameraControl
  -- Plane
  let plane ← Scene.CreateGameObject scene "Plane"
  let tiledMesh ← ResourceManager.CreateAsset .MeshResource .none
  call (.AddParam tiledMesh
    (.CreatePlane .ZERO .UNIT_Z .UNIT_X (vec2.splat 100000) (some (vec2.splat 20000))))
  call (.GenerateMesh tiledMesh)
  let renderer ← GameObject.Add plane .RenderComponent
  call (.SetMesh renderer tiledMesh)
  call (.SetMaterial renderer boxMaterial)
  let physics ← GameObject.Add plane .RigidBody
  let boxCollider ← Collider.Create .BoxCollider ⟨50000, 50000, 1000⟩
  let added ← AddCollider physics boxCollider
  call (.ColliderSetPosition added ⟨0, 0, -1000⟩)
  let demoBase ← Scene.CreateGameObject scene "Demo Parent"
  let showFloor ← Scene.CreateGameObject scene "Show Floor"
  -- King Monkey
  let kingMonkey ← Scene.CreateGameObject scene "King Monkey"
  call (.SetPostion kingMonkey ⟨1500, 0, 4000⟩)
  let _ ← GameObject.Add kingMonkey .JumpBehaviour
  let _ ← GameObject.Add kingMonkey .TestComponent
  let renderer ← GameObject.Add kingMonkey .RenderComponent
  call (.SetMesh renderer monkeyMesh)
  call (.SetMaterial renderer assignmentMat)
  call (.AddChild showFloor kingMonkey)
  let behaviour ← GameObject.Add kingMonkey .RotatingBehaviour
  call (.SetRotationSpeed behaviour ⟨90000, 0, 0⟩)
  -- Left Pillar
  let leftPillar ← Scene.CreateGameObject scene "Left Pillar"
  let pillarMeshL ← ResourceManager.CreateAsset .MeshResource .none
  call (.AddParam pillarMeshL (.CreateCube .ZERO .ONE))
  call (.GenerateMesh pillarMeshL)
  call (.SetPostion leftPillar ⟨1500, 2700, 4000⟩)
  let _ ← GameObject.Add leftPillar .TestComponent
  let renderer ← GameObject.Add leftPillar .RenderComponent
  call (.SetMesh renderer pillarMeshL)
  call (.SetMaterial renderer assignmentMatPillar)
  call (.AddChild showFloor leftPillar)
  let behaviour ← GameObject.Add leftPillar .RotatingBehaviour
  call (.SetRotationSpeed behaviour ⟨0, 0, 90000⟩)
  -- Right Pillar
  let rightPillar ← Scene.CreateGameObject scene "Right Pillar"
  let pillarMeshR ← ResourceManager.CreateAsset .MeshResource .none
  call (.AddParam pillarMeshR (.CreateCube .ZERO .ONE))
  call (.GenerateMesh pillarMeshR)
  call (.SetPostion rightPillar ⟨1500, -2700, 4000⟩)
  let _ ← GameObject.Add rightPillar .TestComponent
  let renderer ← GameObject.Add rightPillar .RenderComponent
  call (.SetMesh renderer pillarMeshR)
  call (.SetMaterial renderer assignmentMatPillar)
  call (.AddChild showFloor rightPillar)
  let behaviour ← GameObject.Add rightPillar .RotatingBehaviour
  call (.SetRotationSpeed behaviour ⟨0, 0, 90000⟩)
  -- Left Flame
  let leftFlame ← Scene.CreateGameObject scene "Left Flame"
  call (.SetPostion leftFlame ⟨1500, 2700, 5000⟩)
  call (.SetScale leftFlame (vec3.splat 400))
  let _ ← GameObject.Add leftFlame .TestComponent
  let renderer ← GameObject.Add leftFlame .RenderComponent
  call (.SetMesh renderer sphere)
  call (.SetMaterial renderer assignmentMatFire)
  call (.AddChild showFloor leftFlame)
  let behaviour ← GameObject.Add leftFlame .RotatingBehaviour
  call (.SetRotationSpeed behaviour ⟨0, 0, -90000⟩)
  -- Right Flame
  let rightFlame ← Scene.CreateGameObject scene "Right Flame"
  call (.SetPostion rightFlame ⟨1500, -2700, 5000⟩)
  call (.SetScale rightFlame (vec3.splat 400))
  let _ ← GameObject.Add rightFlame .TestComponent
  let renderer ← GameObject.Add rightFlame .RenderComponent
  call (.SetMesh renderer sphere)
  call (.SetMaterial renderer assignmentMatFire)
  call (.AddChild showFloor rightFlame)
  let behaviour ← GameObject.Add rightFlame .RotatingBehaviour
  call (.SetRotationSpeed behaviour ⟨0, 0, -90000⟩)
  -- Trigger
  let trigger ← Scene.CreateGameObject scene "Trigger"
  let volume ← GameObject.Add trigger .TriggerVolume
  let collider ← Collider.Create .CylinderCollider ⟨3000, 3000, 1000⟩
  call (.ColliderSetPosition collider ⟨0, 0, 500⟩)
  let _ ← AddCollider volume collider
  let _ ← GameObject.Add trigger .TriggerVolumeEnterBehaviour
  -- GUI defaults
  let uiSprite ← ResourceManager.CreateAsset .Texture2D (.file "textures/ui-sprite.png")
  call (.SetDefaultTexture uiSprite)
  call (.SetDefaultBorderRadius 8)
  -- persist and hand over
  ResourceManager.SaveManifest "scene-manifest.json"
  call (.Save scene "scene.json")
  call (.AppLoadScene scene)

/-- The body of `_CreateScene` (source lines 90 to 586) without the declaration of the local
`loadScene` on line 92, as a function of the value of that local and of the file system. -/
def _CreateSceneWith (loadScene : Bool) (fs : FileSystem) : M Unit := do
  Application.Get
  -- the operator && evaluates its right operand only when the left one is true
  let condition ← if loadScene then filesystem.exists fs "scene.json" else pure false
  if condition then
    call (.AppLoadSceneFile "scene.json")
  else
    constructScene

/-- The routine `DefaultSceneLayer::_CreateScene`: the local `loadScene` is initialised to
`false` (source line 92). -/
def _CreateScene (fs : FileSystem) : M Unit :=
  let loadScene := false
  _CreateSceneWith loadScene fs

/-- The configuration document passed to the layer callbacks (`nlohmann::json`). -/
inductive json where
  | null
  | boolean (b : Bool)
  | number (n : Int)
  | string (s : String)
  | array (items : List json)
  | object (members : List (String × json))

/-- The callback `DefaultSceneLayer::OnAppLoad(config)`: its body is the single call
`_CreateScene()`; `config` is not used. -/
def OnAppLoad (config : json) (fs : FileSystem) : M Unit :=
  _CreateScene fs

/-- The two members of the base class `ApplicationLayer` that the constructor assigns.  The flag type
`AppLayerFunctions` is declared outside the file and is a parameter here. -/
structure ApplicationLayer (AppLayerFunctions : Type) where
  Name : String
  Overrides : AppLayerFunctions

/-- The constructor `DefaultSceneLayer::DefaultSceneLayer()`: after the base-class constructor has
produced `base`, it assigns `Name` and `Overrides`.  `OnAppLoad` is the enumerator
`AppLayerFunctions::OnAppLoad`. -/
def DefaultSceneLayer {AppLayerFunctions : Type} (base : ApplicationLayer AppLayerFunctions)
    (OnAppLoad : AppLayerFunctions) : ApplicationLayer AppLayerFunctions :=
  { base with Name := "Default Scene", Overrides := OnAppLoad }

/-! ## Reading a trace -/

/-- The trace of the construct path, run on its own. -/
def constructTrace : List Effect := traceOf constructScene

/-- A `ResourceManager::CreateAsset` call. -/
def Effect.isCreateAsset : Effect → Bool
  | .CreateAsset _ _ _ => true
  | _ => false

/-- A `ResourceManager::SaveManifest` call. -/
def Effect.isSaveManifest : Effect → Bool
  | .SaveManifest _ => true
  | _ => false

/-- A load-from-file call `app.LoadScene(path)`. -/
def Effect.isAppLoadSceneFile : Effect → Bool
  | .AppLoadSceneFile _ => true
  | _ => false

/-- A hand-over `app.LoadScene(scene)` of a constructed scene. -/
def Effect.isAppLoadScene : Effect → Bool
  | .AppLoadScene _ => true
  | _ => false

/-- The file a call is asked to write: the two save calls name their output file, no other call
of the routine is given a file to write. -/
def Effect.fileWritten : Effect → Option String
  | .SaveManifest path => some path
  | .Save _ path => some path
  | _ => none

/-- The file-writing calls of a trace, in order. -/
def fileWrites (tr : List Effect) : List Effect :=
  tr.filter fun e => e.fileWritten.isSome

/-- The files a call is asked to read: the source files of a created asset and the scene file of
the load-from-file call. -/
def Effect.filesRead : Effect → List String
  | .CreateAsset _ _ (.shaderParts v f) => [v, f]
  | .CreateAsset _ _ (.file path) => [path]
  | .AppLoadSceneFile path => [path]
  | _ => []

/-- The files a call touches in any way: read, written, or tested for existence. -/
def Effect.filesTouched : Effect → List String
  | .FilesystemExists path => [path]
  | e => e.filesRead ++ e.fileWritten.toList

/-- A call that changes the scene: its colour table, its lights, its game objects, their
transforms, components, colliders and parent/child links. -/
def Effect.mutatesScene : Effect → Bool
  | .SetColorLUT _ _ => true
  | .LightsResize _ _ => true
  | .LightSetPosition _ _ _ => true
  | .LightSetColor _ _ _ => true
  | .LightSetRange _ _ _ => true
  | .SetPostion _ _ => true
  | .LookAt _ _ => true
  | .SetScale _ _ => true
  | .Add _ _ _ => true
  | .CreateGameObject _ _ _ => true
  | .SetMesh _ _ => true
  | .SetMaterial _ _ => true
  | .AddCollider _ _ _ => true
  | .ColliderSetPosition _ _ => true
  | .AddChild _ _ => true
  | .SetRotationSpeed _ _ => true
  | _ => false

/-- The scene as far as the routine determines it: the mutating calls made so far, in order. -/
def sceneState (calls : List Effect) : List Effect :=
  calls.filter Effect.mutatesScene

/-- Among `calls` there is a `CreateAsset<type>` call that returned `h`. -/
def createsAsset (calls : List Effect) (h : Handle) (type : AssetType) : Bool :=
  calls.any fun e =>
    match e with
    | .CreateAsset h1 type1 _ => decide (h1 = h ∧ type1 = type)
    | _ => false

/-- The constructor arguments with which asset `h` was created. -/
def assetArgs (calls : List Effect) (h : Handle) : Option AssetArgs :=
  calls.findSome? fun e =>
    match e with
    | .CreateAsset h1 _ args => if h1 = h then some args else none
    | _ => none

/-- The handles of the materials created, in creation order. -/
def materials (calls : List Effect) : List Handle :=
  calls.filterMap fun e =>
    match e with
    | .CreateAsset h .Material _ => some h
    | _ => none

/-- The value of `material->Name` after `calls`: the last name assigned, if any. -/
def materialName (calls : List Effect) (material : Handle) : Option String :=
  calls.foldl (fun name e =>
    match e with
    | .MaterialSetName m n => if m = material then some n else name
    | _ => name) none

/-- The shader program a material was created from. -/
def materialShader (calls : List Effect) (material : Handle) : Option Handle :=
  match assetArgs calls material with
  | some (.shader program) => some program
  | _ => none

/-- The game objects made by `CreateGameObject`, with their names, in creation order. -/
def gameObjects (calls : List Effect) : List (Handle × String) :=
  calls.filterMap fun e =>
    match e with
    | .CreateGameObject h _ name => some (h, name)
    | _ => none

/-- The name a game object was created with. -/
def objectName (calls : List Effect) (object : Handle) : Option String :=
  (gameObjects calls).lookup object

/-- The game object created with a given name (the first one, if the name is used twice). -/
def objectNamed (calls : List Effect) (name : String) : Option Handle :=
  ((gameObjects calls).find? fun p => p.2 = name).map Prod.fst

/-- The parent/child links made by `AddChild`, as (parent, child), in call order. -/
def childEdges (calls : List Effect) : List (Handle × Handle) :=
  calls.filterMap fun e =>
    match e with
    | .AddChild parent child => some (parent, child)
    | _ => none

/-- The children given to `parent`, in the order they were added. -/
def childrenOf (calls : List Effect) (parent : Handle) : List Handle :=
  (childEdges calls).filterMap fun p => if p.1 = parent then some p.2 else none

/-- The parents given to `child`, in the order the links were made. -/
def parentsOf (calls : List Effect) (child : Handle) : List Handle :=
  (childEdges calls).filterMap fun p => if p.2 = child then some p.1 else none

/-- The names of the children given to the object created with `name`. -/
def childNames (calls : List Effect) (name : String) : List (Option String) :=
  match objectNamed calls name with
  | some h => (childrenOf calls h).map (objectName calls)
  | none => []

/-- The names of the parents given to the object created with `name`. -/
def parentNames (calls : List Effect) (name : String) : List (Option String) :=
  match objectNamed calls name with
  | some h => (parentsOf calls h).map (objectName calls)
  | none => []

/-- The render components attached, as (component, game object), in call order. -/
def renderers (calls : List Effect) : List (Handle × Handle) :=
  calls.filterMap fun e =>
    match e with
    | .Add r object .RenderComponent => some (r, object)
    | _ => none

/-- The mesh of a render component after `calls`: the last one set, if any. -/
def meshOf (calls : List Effect) (renderer : Handle) : Option Handle :=
  calls.foldl (fun mesh e =>
    match e with
    | .SetMesh r m => if r = renderer then some m else mesh
    | _ => mesh) none

/-- The material of a render component after `calls`: the last one set, if any. -/
def materialOf (calls : List Effect) (renderer : Handle) : Option Handle :=
  calls.foldl (fun material e =>
    match e with
    | .SetMaterial r m => if r = renderer then some m else material
    | _ => material) none

/-- One row per render component: the name of its game object, the name of its material and
the constructor arguments of the shader program that material was created from. -/
def renderTable (calls : List Effect) : List (Option String × Option String × Option AssetArgs) :=
  (renderers calls).map fun p =>
    (objectName calls p.2,
     (materialOf calls p.1).bind (materialName calls),
     ((materialOf calls p.1).bind (materialShader calls)).bind (assetArgs calls))

/-- The calls made before the first call satisfying `stop`. -/
def callsBefore (stop : Effect → Bool) (calls : List Effect) : List Effect :=
  calls.takeWhile fun e => !stop e

/-- A `scene->Save` call. -/
def Effect.isSave : Effect → Bool
  | .Save _ _ => true
  | _ => false

/-! ## Lights -/

/-- An element of `scene->Lights`.  The routine assigns `Position`, `Color` and `Range`; whatever
else the engine keeps in a light is `rest`. -/
structure Light (α : Type) where
  Position : vec3
  Color : vec3
  Range : Int
  rest : α

/-- The operation `std::vector::resize(n)`: keep the first `n` elements and fill up with
default-constructed elements `d`. -/
def resize {β : Type} (v : List β) (n : Nat) (d : β) : List β :=
  v.take n ++ List.replicate (n - v.length) d

/-- Assignment through `v[i]`: defined only when `i` is in bounds. -/
def assignAt {β : Type} (v : List β) (i : Nat) (f : β → β) : Option (List β) :=
  if h : i < v.length then some (v.set i (f (v.get ⟨i, h⟩))) else none

/-- A call on `scene->Lights`. -/
def Effect.isLightOp : Effect → Bool
  | .LightsResize _ _ => true
  | .LightSetPosition _ _ _ => true
  | .LightSetColor _ _ _ => true
  | .LightSetRange _ _ _ => true
  | _ => false

/-- The effect of one call on the `Lights` vector of `scene`; `none` is an out-of-bounds access. -/
def stepLights {α : Type} (scene : Handle) (d : Light α) (v : List (Light α)) :
    Effect → Option (List (Light α))
  | .LightsResize s n => if s = scene then some (resize v n d) else some v
  | .LightSetPosition s i p =>
      if s = scene then assignAt v i fun l => { l with Position := p } else some v
  | .LightSetColor s i c =>
      if s = scene then assignAt v i fun l => { l with Color := c } else some v
  | .LightSetRange s i r =>
      if s = scene then assignAt v i fun l => { l with Range := r } else some v
  | _ => some v

/-- The `Lights` vector of `scene` after `calls`, starting from the vector `init` the `Scene`
constructor left; `none` if some access was out of bounds. -/
def runLights {α : Type} (scene : Handle) (d : Light α) :
    List Effect → List (Light α) → Option (List (Light α))
  | [], v => some v
  | e :: rest, v =>
      match stepLights scene d v e with
      | some v1 => runLights scene d rest v1
      | none => none

/-- The handles of the assets of one type created, in creation order. -/
def assetsOfType (calls : List Effect) (type : AssetType) : List Handle :=
  calls.filterMap fun e =>
    match e with
    | .CreateAsset h type1 _ => if type1 = type then some h else none
    | _ => none

/-- Check at a call: a material is created from a shader program created by an earlier call, a
mesh or material is attached to a render component after it was created. -/
def usesEarlierAsset (calls : List Effect) (i : Nat) : Effect → Bool
  | .CreateAsset _ .Material (.shader s) => createsAsset (calls.take i) s .ShaderProgram
  | .CreateAsset _ .Material _ => false
  | .SetMesh _ mesh => createsAsset (calls.take i) mesh .MeshResource
  | .SetMaterial _ material => createsAsset (calls.take i) material .Material
  | _ => true

/-- The check `c i a` passes at every index `i` of `l`, where `a` is the element at `i`. -/
def allIndexed {α : Type} (l : List α) (c : Nat → α → Bool) : Bool :=
  (List.range l.length).all fun i =>
    match l[i]? with
    | some a => c i a
    | none => true

/-! ## The trace of the routine in each case of its condition -/

theorem createSceneWith_false (fs : FileSystem) :
    _CreateSceneWith false fs = (do Application.Get; constructScene) := by
  funext w
  simp [_CreateSceneWith, bind, StateT.bind, pure, StateT.pure]

theorem createSceneWith_true_missing (fs : FileSystem) (h : fs "scene.json" = false) :
    _CreateSceneWith true fs
      = (do Application.Get; call (.FilesystemExists "scene.json"); constructScene) := by
  funext w
  simp [_CreateSceneWith, bind, StateT.bind, pure, StateT.pure, filesystem.exists, h, call]

theorem createSceneWith_true_exists (fs : FileSystem) (h : fs "scene.json" = true) :
    _CreateSceneWith true fs
      = (do Application.Get; call (.FilesystemExists "scene.json");
            call (.AppLoadSceneFile "scene.json")) := by
  funext w
  simp [_CreateSceneWith, bind, StateT.bind, pure, StateT.pure, filesystem.exists, h, call]

set_option maxRecDepth 100000 in
theorem trace_get_construct :
    traceOf (do Application.Get; constructScene) = .ApplicationGet :: constructTrace := by
  decide!

set_option maxRecDepth 100000 in
theorem trace_get_exists_construct :
    traceOf (do Application.Get; call (.FilesystemExists "scene.json"); constructScene)
      = .ApplicationGet :: .FilesystemExists "scene.json" :: constructTrace := by
  decide!

theorem trace_get_exists_load :
    traceOf (do Application.Get; call (.FilesystemExists "scene.json");
                call (.AppLoadSceneFile "scene.json"))
      = [.ApplicationGet, .FilesystemExists "scene.json", .AppLoadSceneFile "scene.json"] := by
  decide!

/-- The trace of the body in each of the three cases of its condition. -/
theorem trace_createSceneWith (loadScene : Bool) (fs : FileSystem) :
    traceOf (_CreateSceneWith loadScene fs) =
      if loadScene = true ∧ fs "scene.json" = true then
        [.ApplicationGet, .FilesystemExists "scene.json", .AppLoadSceneFile "scene.json"]
      else if loadScene = true then
        .ApplicationGet :: .FilesystemExists "scene.json" :: constructTrace
      else
        .ApplicationGet :: constructTrace := by
  cases loadScene
  · simp [createSceneWith_false, trace_get_construct]
  · cases h : fs "scene.json"
    · simp [createSceneWith_true_missing fs h, trace_get_exists_construct]
    · simp [createSceneWith_true_exists fs h, trace_get_exists_load]

/-! ## Facts about the construct path -/

/-- The construct path ends with the manifest save, the scene save and the hand-over of the scene
that was made earlier by `std::make_shared<Scene>()`. -/
theorem constructTrace_ends_with_saves :
    constructTrace = constructTrace.take 229 ++
      [.SaveManifest "scene-manifest.json", .Save 23 "scene.json", .AppLoadScene 23] ∧
    Effect.MakeScene 23 ∈ constructTrace.take 229 := by
  decide!

/-- The construct path makes no load-from-file call and no existence test. -/
theorem constructTrace_no_load_no_exists :
    (constructTrace.all fun e =>
      match e with
      | .AppLoadSceneFile _ => false
      | .FilesystemExists _ => false
      | _ => true) = true := by
  decide!

/-- The file-writing calls of the construct path. -/
theorem fileWrites_constructTrace :
    fileWrites constructTrace =
      [.SaveManifest "scene-manifest.json", .Save 23 "scene.json"] := by
  decide!

/-- A load-from-file call is not part of the construct path. -/
theorem appLoadSceneFile_not_mem_constructTrace (path : String) :
    Effect.AppLoadSceneFile path ∉ constructTrace := by
  intro h
  have := List.all_eq_true.mp constructTrace_no_load_no_exists _ h
  simp at this

/-- An existence test is not part of the construct path. -/
theorem filesystemExists_not_mem_constructTrace (path : String) :
    Effect.FilesystemExists path ∉ constructTrace := by
  intro h
  have := List.all_eq_true.mp constructTrace_no_load_no_exists _ h
  simp at this

/-! ## Properties of the routine -/

/-- C1: for every value of the toggle and every file system, the routine makes the load-from-file
call `app.LoadScene("scene.json")` exactly when the toggle is on and `scene.json` exists, and then
it does nothing else; in every other case it runs the construct path, which ends with the save of
the manifest, the save of the scene and the hand-over of the constructed scene.  The routine
itself is the body at toggle `false`. -/
theorem C1_load_iff_enabled_and_file_exists (loadScene : Bool) (fs : FileSystem) :
    (∀ path, Effect.AppLoadSceneFile path ∈ traceOf (_CreateSceneWith loadScene fs) ↔
      (path = "scene.json" ∧ loadScene = true ∧ fs "scene.json" = true)) ∧
    (if loadScene = true ∧ fs "scene.json" = true then
      traceOf (_CreateSceneWith loadScene fs) =
        [.ApplicationGet, .FilesystemExists "scene.json", .AppLoadSceneFile "scene.json"]
    else
      ∃ entry built scene,
        traceOf (_CreateSceneWith loadScene fs) = entry ++ constructTrace ∧
        (∀ e ∈ entry, e = .ApplicationGet ∨ e = .FilesystemExists "scene.json") ∧
        constructTrace = built ++
          [.SaveManifest "scene-manifest.json", .Save scene "scene.json", .AppLoadScene scene] ∧
        Effect.MakeScene scene ∈ built) ∧
    _CreateScene fs = _CreateSceneWith false fs := by
  refine ⟨?_, ?_, rfl⟩
  · intro path
    rw [trace_createSceneWith]
    have hno := appLoadSceneFile_not_mem_constructTrace path
    by_cases hc : loadScene = true ∧ fs "scene.json" = true
    · rw [if_pos hc]
      simp [hc.1, hc.2]
    · rw [if_neg hc]
      by_cases hl : loadScene = true
      · rw [if_pos hl]
        simp only [List.mem_cons, hno, or_false]
        constructor
        · intro h
          rcases h with h | h <;> cases h
        · intro h
          exact absurd ⟨h.2.1, h.2.2⟩ hc
      · rw [if_neg hl]
        simp only [List.mem_cons, hno, or_false]
        constructor
        · intro h
          cases h
        · intro h
          exact absurd h.2.1 hl
  · rw [trace_createSceneWith]
    by_cases hc : loadScene = true ∧ fs "scene.json" = true
    · rw [if_pos hc, if_pos hc]
    · rw [if_neg hc, if_neg hc]
      by_cases hl : loadScene = true
      · rw [if_pos hl]
        exact ⟨[.ApplicationGet, .FilesystemExists "scene.json"], constructTrace.take 229, 23,
          by simp, by simp, constructTrace_ends_with_saves.1, constructTrace_ends_with_saves.2⟩
      · rw [if_neg hl]
        exact ⟨[.ApplicationGet], constructTrace.take 229, 23,
          by simp, by simp, constructTrace_ends_with_saves.1, constructTrace_ends_with_saves.2⟩

/-- The routine is the construct path after the `Application::Get()` call, whatever the file
system. -/
theorem trace_CreateScene (fs : FileSystem) :
    traceOf (_CreateScene fs) = .ApplicationGet :: constructTrace := by
  show traceOf (_CreateSceneWith false fs) = _
  rw [trace_createSceneWith]
  simp

/-- No call of the construct path touches the file `scene.json` except the scene save. -/
theorem constructTrace_scene_file_only_saved :
    (constructTrace.all fun e =>
      decide ("scene.json" ∈ e.filesTouched → e = .Save 23 "scene.json")) = true := by
  decide!

/-- The hand-over happens once on the construct path. -/
theorem constructTrace_one_handover :
    constructTrace.filter Effect.isAppLoadScene = [.AppLoadScene 23] ∧
    constructTrace.count .ApplicationGet = 0 := by
  decide!

/-- C2: on the construct path the file-writing calls are exactly
`ResourceManager::SaveManifest("scene-manifest.json")` followed by `scene->Save("scene.json")`, on
the scene the routine made; on the load path there is no file-writing call.  This holds for the
body at every toggle value and for the routine itself. -/
theorem C2_file_writes_are_manifest_then_scene (loadScene : Bool) (fs : FileSystem) :
    ∃ scene, Effect.MakeScene scene ∈ constructTrace ∧
      fileWrites (traceOf (_CreateSceneWith loadScene fs)) =
        (if loadScene = true ∧ fs "scene.json" = true then []
         else [.SaveManifest "scene-manifest.json", .Save scene "scene.json"]) ∧
      fileWrites (traceOf (_CreateScene fs)) =
        [.SaveManifest "scene-manifest.json", .Save scene "scene.json"] := by
  refine ⟨23, ?_, ?_, ?_⟩
  · rw [constructTrace_ends_with_saves.1]
    exact List.mem_append_left _ constructTrace_ends_with_saves.2
  · rw [trace_createSceneWith]
    have hw := fileWrites_constructTrace
    unfold fileWrites at hw ⊢
    by_cases hc : loadScene = true ∧ fs "scene.json" = true
    · rw [if_pos hc, if_pos hc]
      rfl
    · rw [if_neg hc, if_neg hc]
      by_cases hl : loadScene = true
      · rw [if_pos hl, List.filter_cons_of_neg (by simp [Effect.fileWritten]),
          List.filter_cons_of_neg (by simp [Effect.fileWritten]), hw]
      · rw [if_neg hl, List.filter_cons_of_neg (by simp [Effect.fileWritten]), hw]
  · rw [trace_CreateScene]
    have hw := fileWrites_constructTrace
    unfold fileWrites at hw ⊢
    rw [List.filter_cons_of_neg (by simp [Effect.fileWritten]), hw]

/-- C5: for every config the callback `OnAppLoad` is one run of `_CreateScene`, not none and not
two: its trace has the single entry call `Application::Get()` and the single hand-over
`app.LoadScene(scene)` of one run.  A freshly constructed layer has `Name` equal to
"Default Scene" and `Overrides` equal to `AppLayerFunctions::OnAppLoad` and to no other value,
whatever the base-class constructor had set. -/
theorem C5_OnAppLoad_runs_CreateScene_once (config : json) (fs : FileSystem)
    (AppLayerFunctions : Type) (base : ApplicationLayer AppLayerFunctions)
    (OnAppLoadFlag : AppLayerFunctions) :
    OnAppLoad config fs = _CreateScene fs ∧
    (traceOf (OnAppLoad config fs)).count .ApplicationGet = 1 ∧
    (traceOf (OnAppLoad config fs)).filter Effect.isAppLoadScene = [.AppLoadScene 23] ∧
    (traceOf (OnAppLoad config fs)).length = 1 + constructTrace.length ∧
    (DefaultSceneLayer base OnAppLoadFlag).Name = "Default Scene" ∧
    (DefaultSceneLayer base OnAppLoadFlag).Overrides = OnAppLoadFlag := by
  have ht : traceOf (OnAppLoad config fs) = .ApplicationGet :: constructTrace :=
    trace_CreateScene fs
  refine ⟨rfl, ?_, ?_, ?_, rfl, rfl⟩
  · rw [ht, List.count_cons_self, constructTrace_one_handover.2]
  · rw [ht, List.filter_cons_of_neg (by simp [Effect.isAppLoadScene])]
    exact constructTrace_one_handover.1
  · rw [ht, List.length_cons, Nat.add_comm]

/-- C6: for any two configs and any two file systems the callback has the same trace, the entry
call followed by the construct path.  That trace contains no load-from-file call and no
existence test, the only call in it that touches the file `scene.json` is the scene save, and
that save is made. -/
theorem C6_always_rebuilds (config1 config2 : json) (fs1 fs2 : FileSystem) :
    traceOf (OnAppLoad config1 fs1) = traceOf (OnAppLoad config2 fs2) ∧
    traceOf (OnAppLoad config1 fs1) = .ApplicationGet :: constructTrace ∧
    (∀ path, Effect.AppLoadSceneFile path ∉ traceOf (OnAppLoad config1 fs1)) ∧
    (∀ path, Effect.FilesystemExists path ∉ traceOf (OnAppLoad config1 fs1)) ∧
    (∀ e ∈ traceOf (OnAppLoad config1 fs1), "scene.json" ∉ e.filesRead) ∧
    (∃ scene, Effect.Save scene "scene.json" ∈ traceOf (OnAppLoad config1 fs1) ∧
      Effect.MakeScene scene ∈ traceOf (OnAppLoad config1 fs1)) := by
  have h1 : traceOf (OnAppLoad config1 fs1) = .ApplicationGet :: constructTrace :=
    trace_CreateScene fs1
  have h2 : traceOf (OnAppLoad config2 fs2) = .ApplicationGet :: constructTrace :=
    trace_CreateScene fs2
  refine ⟨h1.trans h2.symm, h1, ?_, ?_, ?_, ?_⟩
  · intro path h
    rw [h1] at h
    rcases List.mem_cons.mp h with h | h
    · cases h
    · exact appLoadSceneFile_not_mem_constructTrace path h
  · intro path h
    rw [h1] at h
    rcases List.mem_cons.mp h with h | h
    · cases h
    · exact filesystemExists_not_mem_constructTrace path h
  · intro e he hr
    rw [h1] at he
    rcases List.mem_cons.mp he with he | he
    · subst he
      simp [Effect.filesRead] at hr
    · have h := List.all_eq_true.mp constructTrace_scene_file_only_saved e he
      have hs : e = .Save 23 "scene.json" := by
        apply of_decide_eq_true h
        unfold Effect.filesTouched
        split
        · simp [Effect.filesRead] at hr
        · exact List.mem_append_left _ hr
      subst hs
      simp [Effect.filesRead] at hr
  · refine ⟨23, ?_, ?_⟩
    · rw [h1, constructTrace_ends_with_saves.1]
      simp
    · rw [h1, constructTrace_ends_with_saves.1]
      exact List.mem_cons_of_mem _ (List.mem_append_left _ constructTrace_ends_with_saves.2)

/-! ## Positions in a split list -/

/-- In `pre ++ post`, an element that does not occur in `post` sits at an index below
`pre.length`. -/
theorem index_lt_of_not_mem_post {α : Type} {pre post : List α} {i : Nat} {a : α}
    (h : (pre ++ post)[i]? = some a) (hn : a ∉ post) : i < pre.length := by
  by_contra hlt
  rw [List.getElem?_append_right (Nat.le_of_not_lt hlt)] at h
  exact hn (List.getElem?_mem h)

/-- In `pre ++ post`, an element that does not occur in `pre` sits at an index from `pre.length`
on. -/
theorem length_le_index_of_not_mem_pre {α : Type} {pre post : List α} {i : Nat} {a : α}
    (h : (pre ++ post)[i]? = some a) (hn : a ∉ pre) : pre.length ≤ i := by
  by_contra hlt
  rw [List.getElem?_append_left (Nat.lt_of_not_le hlt)] at h
  exact hn (List.getElem?_mem h)

set_option maxRecDepth 100000 in
/-- Before the manifest save there is no save call, and the prefix has 229 calls. -/
theorem constructTrace_prefix_has_no_save :
    ((constructTrace.take 229).all fun e => !e.isSaveManifest && !e.isSave) = true ∧
    (constructTrace.take 229).length = 229 := by
  decide!

set_option maxRecDepth 100000 in
/-- The calls of the construct path that create assets, counted in all and per type, and the
positions of the last asset creation and of the manifest save. -/
theorem constructTrace_asset_counts :
    (constructTrace.filter Effect.isCreateAsset).length = 59 ∧
    ([AssetType.ShaderProgram, .MeshResource, .Texture2D, .Texture1D, .Texture3D, .TextureCube,
        .Material].map fun type => (assetsOfType constructTrace type).length)
      = [11, 7, 22, 2, 1, 1, 15] ∧
    constructTrace[226]? = some (.CreateAsset 94 .Texture2D (.file "textures/ui-sprite.png")) ∧
    constructTrace[229]? = some (.SaveManifest "scene-manifest.json") ∧
    constructTrace.filter Effect.isSaveManifest = [.SaveManifest "scene-manifest.json"] := by
  decide!

/-- C3: on the construct path there is a single `SaveManifest` call, it is
`SaveManifest("scene-manifest.json")`, and every `ResourceManager::CreateAsset` call sits at an
earlier position of the trace than it, so none comes after it.  The 59 asset creations are 11
shader programs, 7 meshes, 22 2D textures, 2 1D lookup tables, 1 3D lookup table, 1 cubemap and
15 materials; the last one is the GUI default texture `textures/ui-sprite.png`. -/
theorem C3_every_asset_created_before_manifest_save :
    constructTrace.filter Effect.isSaveManifest = [.SaveManifest "scene-manifest.json"] ∧
    (∀ (i j : Nat) (e : Effect), constructTrace[i]? = some e → e.isCreateAsset = true →
      constructTrace[j]? = some (.SaveManifest "scene-manifest.json") → i < j) ∧
    (constructTrace.filter Effect.isCreateAsset).length = 59 ∧
    ([AssetType.ShaderProgram, .MeshResource, .Texture2D, .Texture1D, .Texture3D, .TextureCube,
        .Material].map fun type => (assetsOfType constructTrace type).length)
      = [11, 7, 22, 2, 1, 1, 15] ∧
    (∃ (h : Handle) (i j : Nat), i < j ∧
      constructTrace[i]? = some (.CreateAsset h .Texture2D (.file "textures/ui-sprite.png")) ∧
      constructTrace[j]? = some (.SaveManifest "scene-manifest.json")) := by
  obtain ⟨hcount, htypes, hui, hsave, hone⟩ := constructTrace_asset_counts
  refine ⟨hone, ?_, hcount, htypes, ⟨94, 226, 229, by decide, hui, hsave⟩⟩
  intro i j e hi he hj
  have hsplit := constructTrace_ends_with_saves.1
  have hlen := constructTrace_prefix_has_no_save.2
  rw [hsplit] at hi hj
  have h1 : i < (constructTrace.take 229).length := by
    apply index_lt_of_not_mem_post hi
    intro hmem
    simp only [List.mem_cons, List.mem_singleton, List.not_mem_nil, or_false] at hmem
    rcases hmem with h | h | h <;> subst h <;> simp [Effect.isCreateAsset] at he
  have h2 : (constructTrace.take 229).length ≤ j := by
    apply length_le_index_of_not_mem_pre hj
    intro hmem
    have := List.all_eq_true.mp constructTrace_prefix_has_no_save.1 _ hmem
    simp [Effect.isSaveManifest] at this
  omega

set_option maxRecDepth 100000 in
/-- The construct path is 230 calls followed by the scene save and the hand-over; the scene was
made among the 230, and so was every mutating call. -/
theorem constructTrace_built_then_saved :
    constructTrace = constructTrace.take 230 ++ [.Save 23 "scene.json", .AppLoadScene 23] ∧
    Effect.MakeScene 23 ∈ constructTrace.take 230 ∧
    (constructTrace.take 230).length = 230 ∧
    ((constructTrace.take 230).all fun e => !e.isSave) = true ∧
    sceneState (constructTrace.take 230) = sceneState constructTrace ∧
    (sceneState (constructTrace.take 230)).length = 70 := by
  decide!

/-- C4: the construct path ends with `scene->Save("scene.json")` immediately followed by
`app.LoadScene(scene)`, on the scene the routine made.  Every call that changes the scene sits at
an earlier position than the save, so the saved scene has all 70 mutations of the routine, and the
scene at the time of the hand-over is the scene at the time of the save. -/
theorem C4_scene_saved_complete_then_handed_over :
    ∃ built scene,
      constructTrace = built ++ [.Save scene "scene.json", .AppLoadScene scene] ∧
      Effect.MakeScene scene ∈ built ∧
      (∀ (i j : Nat) (e : Effect), constructTrace[i]? = some e → e.mutatesScene = true →
        constructTrace[j]? = some (.Save scene "scene.json") → i < j) ∧
      sceneState built = sceneState constructTrace ∧
      (sceneState built).length = 70 ∧
      sceneState (built ++ [.Save scene "scene.json"]) = sceneState built := by
  obtain ⟨hsplit, hscene, hlen, hnosave, hstate, hcount⟩ := constructTrace_built_then_saved
  refine ⟨constructTrace.take 230, 23, hsplit, hscene, ?_, hstate, hcount, ?_⟩
  · intro i j e hi he hj
    rw [hsplit] at hi hj
    have h1 : i < (constructTrace.take 230).length := by
      apply index_lt_of_not_mem_post hi
      intro hmem
      simp only [List.mem_cons, List.mem_singleton, List.not_mem_nil, or_false] at hmem
      rcases hmem with h | h <;> subst h <;> simp [Effect.mutatesScene] at he
    have h2 : (constructTrace.take 230).length ≤ j := by
      apply length_le_index_of_not_mem_pre hj
      intro hmem
      have := List.all_eq_true.mp hnosave _ hmem
      simp [Effect.isSave] at this
    omega
  · simp [sceneState, Effect.mutatesScene]

/-! ## The scene graph -/

set_option maxRecDepth 100000 in
/-- The game objects the construct path creates and the parent/child links it makes. -/
theorem constructTrace_hierarchy :
    gameObjects constructTrace =
      [(58, "Plane"), (64, "Demo Parent"), (65, "Show Floor"), (66, "King Monkey"),
       (71, "Left Pillar"), (76, "Right Pillar"), (81, "Left Flame"), (85, "Right Flame"),
       (89, "Trigger")] ∧
    childEdges constructTrace = [(65, 66), (65, 71), (65, 76), (65, 81), (65, 85)] := by
  decide!

set_option maxRecDepth 100000 in
/-- The names of the children and parents of the created objects. -/
theorem constructTrace_family_names :
    childNames constructTrace "Show Floor" =
      [some "King Monkey", some "Left Pillar", some "Right Pillar", some "Left Flame",
       some "Right Flame"] ∧
    parentNames constructTrace "Show Floor" = [] ∧
    (∀ name ∈ ["King Monkey", "Left Pillar", "Right Pillar", "Left Flame", "Right Flame"],
      parentNames constructTrace name = [some "Show Floor"] ∧
      childNames constructTrace name = []) ∧
    (∀ name ∈ ["Plane", "Demo Parent", "Trigger"],
      parentNames constructTrace name = [] ∧ childNames constructTrace name = []) := by
  decide!

/-- A chain of links starts at a child and ends at a parent. -/
theorem transGen_ends {α : Type} {r : α → α → Prop} {a b : α} (h : Relation.TransGen r a b) :
    (∃ x, r a x) ∧ (∃ y, r y b) := by
  induction h with
  | single h => exact ⟨⟨_, h⟩, ⟨_, h⟩⟩
  | tail _ h ih => exact ⟨ih.1, ⟨_, h⟩⟩

/-- C7, as stated, fails on the code: "Show Floor" is one of the four objects said to be given
neither a parent nor any child, and the routine gives it children. -/
theorem C7_counterexample_show_floor_is_given_children :
    ∃ name ∈ ["Plane", "Demo Parent", "Show Floor", "Trigger"],
      ¬ (parentNames constructTrace name = [] ∧ childNames constructTrace name = []) := by
  refine ⟨"Show Floor", by decide, ?_⟩
  rw [constructTrace_family_names.1]
  simp

/-- C7, amended: the routine creates nine game objects; "Show Floor" is given exactly the
children King Monkey, Left Pillar, Right Pillar, Left Flame, Right Flame, in that order, by the
only five `AddChild` calls, so each is added once.  Each of the five has the single parent
"Show Floor" and no child; "Show Floor" is given no parent; Plane, Demo Parent and Trigger are
given neither a parent nor a child.  Hence every object has at most one parent and no chain of
parent links leads from an object back to itself. -/
theorem C7_show_floor_is_the_only_parent :
    (gameObjects constructTrace).map Prod.snd =
      ["Plane", "Demo Parent", "Show Floor", "King Monkey", "Left Pillar", "Right Pillar",
       "Left Flame", "Right Flame", "Trigger"] ∧
    ((gameObjects constructTrace).map Prod.fst).Nodup ∧
    childNames constructTrace "Show Floor" =
      [some "King Monkey", some "Left Pillar", some "Right Pillar", some "Left Flame",
       some "Right Flame"] ∧
    (childEdges constructTrace).length = 5 ∧
    parentNames constructTrace "Show Floor" = [] ∧
    (∀ name ∈ ["King Monkey", "Left Pillar", "Right Pillar", "Left Flame", "Right Flame"],
      parentNames constructTrace name = [some "Show Floor"] ∧
      childNames constructTrace name = []) ∧
    (∀ name ∈ ["Plane", "Demo Parent", "Trigger"],
      parentNames constructTrace name = [] ∧ childNames constructTrace name = []) ∧
    (∀ object : Handle, (parentsOf constructTrace object).length ≤ 1) ∧
    (∀ object : Handle,
      ¬ Relation.TransGen (fun child parent => (parent, child) ∈ childEdges constructTrace)
          object object) := by
  obtain ⟨hobjects, hedges⟩ := constructTrace_hierarchy
  obtain ⟨hchildren, hparent, hfive, hothers⟩ := constructTrace_family_names
  refine ⟨?_, ?_, hchildren, ?_, hparent, hfive, hothers, ?_, ?_⟩
  · rw [hobjects]
    rfl
  · rw [hobjects]
    decide
  · rw [hedges]
    rfl
  · intro object
    unfold parentsOf
    rw [hedges]
    clear hobjects hedges hchildren hparent hfive hothers
    simp only [List.filterMap_cons, List.filterMap_nil]
    split_ifs <;> subst_vars <;> simp_all
  · intro object hcycle
    obtain ⟨⟨x, hx⟩, ⟨y, hy⟩⟩ := transGen_ends hcycle
    rw [hedges] at hx hy
    clear hobjects hedges hchildren hparent hfive hothers hcycle
    simp only [List.mem_cons, Prod.mk.injEq, List.not_mem_nil, or_false] at hx hy
    have hparentIs : object = 65 := by
      rcases hy with h | h | h | h | h <;> exact h.1
    subst hparentIs
    rcases hx with h | h | h | h | h <;> exact absurd h.2 (by decide)

/-! ## Materials and render components -/

/-- A property checked at every index of a list holds at every index. -/
theorem forall_index_of_allIndexed {α : Type} (l : List α) (c : Nat → α → Bool)
    (h : allIndexed l c = true) :
    ∀ (i : Nat) (a : α), l[i]? = some a → c i a = true := by
  intro i a hi
  have hlt : i < l.length := (List.getElem?_eq_some.mp hi).1
  have hall := List.all_eq_true.mp h i (List.mem_range.mpr hlt)
  simpa [hi] using hall

set_option maxRecDepth 100000 in
/-- Every call of the construct path passes the check `usesEarlierAsset`. -/
theorem constructTrace_uses_earlier_assets :
    allIndexed constructTrace (usesEarlierAsset constructTrace) = true := by
  decide!

set_option maxRecDepth 100000 in
/-- The materials of the construct path and the names they have when the manifest is saved. -/
theorem constructTrace_material_names :
    materials constructTrace = [25, 26, 27, 28, 29, 30, 34, 37, 40, 41, 42, 43, 51, 52, 53] ∧
    (materials constructTrace).map
        (materialName (callsBefore Effect.isSaveManifest constructTrace)) =
      [some "Box", some "Monkey", some "Box-Specular", some "Foliage Shader", some "Toon",
       some "Displacement Map", some "Tangent Space Normal Map", some "Multitexturing",
       some "KingMonkeyMat", some "PillarMat", some "FireMat", some "InvaderMat",
       some "AssignmentMat", some "AssignmentMatPillar", some "AssignmentMatFire"] := by
  decide!

/-- C8: the construct path creates 15 materials.  When the manifest is saved their names are
Box, Monkey, Box-Specular, Foliage Shader, Toon, Displacement Map, Tangent Space Normal Map,
Multitexturing, KingMonkeyMat, PillarMat, FireMat, InvaderMat, AssignmentMat, AssignmentMatPillar
and AssignmentMatFire: every material has a name, no name is empty and no two are equal.  Every
`CreateAsset<Material>` call is given a shader program that an earlier call of the trace
created. -/
theorem C8_materials_named_distinct_on_earlier_shader :
    (materials constructTrace).length = 15 ∧
    (materials constructTrace).Nodup ∧
    (materials constructTrace).map
        (materialName (callsBefore Effect.isSaveManifest constructTrace)) =
      [some "Box", some "Monkey", some "Box-Specular", some "Foliage Shader", some "Toon",
       some "Displacement Map", some "Tangent Space Normal Map", some "Multitexturing",
       some "KingMonkeyMat", some "PillarMat", some "FireMat", some "InvaderMat",
       some "AssignmentMat", some "AssignmentMatPillar", some "AssignmentMatFire"] ∧
    (∀ m ∈ materials constructTrace, ∃ name,
      materialName (callsBefore Effect.isSaveManifest constructTrace) m = some name ∧
      name ≠ "") ∧
    ((materials constructTrace).map
        (materialName (callsBefore Effect.isSaveManifest constructTrace))).Nodup ∧
    (∀ (i : Nat) (m : Handle) (args : AssetArgs),
      constructTrace[i]? = some (.CreateAsset m .Material args) →
      ∃ s, args = .shader s ∧ createsAsset (constructTrace.take i) s .ShaderProgram = true) := by
  obtain ⟨hmaterials, hnames⟩ := constructTrace_material_names
  refine ⟨?_, ?_, hnames, ?_, ?_, ?_⟩
  · rw [hmaterials]
    rfl
  · rw [hmaterials]
    decide
  · intro m hm
    have hmem : materialName (callsBefore Effect.isSaveManifest constructTrace) m ∈
        (materials constructTrace).map
          (materialName (callsBefore Effect.isSaveManifest constructTrace)) :=
      List.mem_map_of_mem _ hm
    rw [hnames] at hmem
    simp only [List.mem_cons, List.mem_singleton, List.not_mem_nil, or_false] at hmem
    rcases hmem with h | h | h | h | h | h | h | h | h | h | h | h | h | h | h <;>
      exact ⟨_, h, by decide⟩
  · rw [hnames]
    decide
  · intro i m args hi
    have h := forall_index_of_allIndexed constructTrace (usesEarlierAsset constructTrace)
      constructTrace_uses_earlier_assets i _ hi
    cases args with
    | shader s => exact ⟨s, rfl, h⟩
    | shaderParts v f => simp [usesEarlierAsset] at h
    | file path => simp [usesEarlierAsset] at h
    | none => simp [usesEarlierAsset] at h

set_option maxRecDepth 100000 in
/-- The render components of the construct path when the scene is saved: none is attached
later, each has a mesh and a material, and the table of their objects, materials and shaders. -/
theorem constructTrace_render_components :
    renderers (callsBefore Effect.isSave constructTrace) = renderers constructTrace ∧
    (renderers constructTrace).length = 6 ∧
    ((renderers constructTrace).all fun p =>
      (meshOf (callsBefore Effect.isSave constructTrace) p.1).isSome &&
      (materialOf (callsBefore Effect.isSave constructTrace) p.1).isSome) = true ∧
    renderTable (callsBefore Effect.isSave constructTrace) =
      [(some "Plane", some "Box",
          some (.shaderParts "shaders/vertex_shaders/basic.glsl"
            "shaders/fragment_shaders/frag_blinn_phong_textured.glsl")),
       (some "King Monkey", some "AssignmentMat",
          some (.shaderParts "shaders/vertex_shaders/assignment_vert.glsl"
            "shaders/fragment_shaders/assignment_frag.glsl")),
       (some "Left Pillar", some "AssignmentMatPillar",
          some (.shaderParts "shaders/vertex_shaders/assignment_vert.glsl"
            "shaders/fragment_shaders/assignment_frag.glsl")),
       (some "Right Pillar", some "AssignmentMatPillar",
          some (.shaderParts "shaders/vertex_shaders/assignment_vert.glsl"
            "shaders/fragment_shaders/assignment_frag.glsl")),
       (some "Left Flame", some "AssignmentMatFire",
          some (.shaderParts "shaders/vertex_shaders/assignment_vert.glsl"
            "shaders/fragment_shaders/assignment_frag.glsl")),
       (some "Right Flame", some "AssignmentMatFire",
          some (.shaderParts "shaders/vertex_shaders/assignment_vert.glsl"
            "shaders/fragment_shaders/assignment_frag.glsl"))] := by
  decide!

/-- C9: six render components are attached, to Plane, King Monkey, Left Pillar, Right Pillar,
Left Flame and Right Flame, all before the scene is saved.  When the scene is saved each of them
has a mesh and a material, and every `SetMesh` and `SetMaterial` call of the trace is given an
asset that an earlier call created.  The five children of "Show Floor" are the last five rows:
their materials are AssignmentMat, AssignmentMatPillar (twice) and AssignmentMatFire (twice), all
created from the assignment shader program. -/
theorem C9_render_components_complete_at_save :
    renderers (callsBefore Effect.isSave constructTrace) = renderers constructTrace ∧
    (renderers constructTrace).length = 6 ∧
    (∀ p ∈ renderers constructTrace,
      (∃ mesh, meshOf (callsBefore Effect.isSave constructTrace) p.1 = some mesh) ∧
      (∃ material, materialOf (callsBefore Effect.isSave constructTrace) p.1 = some material)) ∧
    (∀ (i : Nat) (r mesh : Handle), constructTrace[i]? = some (.SetMesh r mesh) →
      createsAsset (constructTrace.take i) mesh .MeshResource = true) ∧
    (∀ (i : Nat) (r material : Handle), constructTrace[i]? = some (.SetMaterial r material) →
      createsAsset (constructTrace.take i) material .Material = true) ∧
    renderTable (callsBefore Effect.isSave constructTrace) =
      [(some "Plane", some "Box",
          some (.shaderParts "shaders/vertex_shaders/basic.glsl"
            "shaders/fragment_shaders/frag_blinn_phong_textured.glsl")),
       (some "King Monkey", some "AssignmentMat",
          some (.shaderParts "shaders/vertex_shaders/assignment_vert.glsl"
            "shaders/fragment_shaders/assignment_frag.glsl")),
       (some "Left Pillar", some "AssignmentMatPillar",
          some (.shaderParts "shaders/vertex_shaders/assignment_vert.glsl"
            "shaders/fragment_shaders/assignment_frag.glsl")),
       (some "Right Pillar", some "AssignmentMatPillar",
          some (.shaderParts "shaders/vertex_shaders/assignment_vert.glsl"
            "shaders/fragment_shaders/assignment_frag.glsl")),
       (some "Left Flame", some "AssignmentMatFire",
          some (.shaderParts "shaders/vertex_shaders/assignment_vert.glsl"
            "shaders/fragment_shaders/assignment_frag.glsl")),
       (some "Right Flame", some "AssignmentMatFire",
          some (.shaderParts "shaders/vertex_shaders/assignment_vert.glsl"
            "shaders/fragment_shaders/assignment_frag.glsl"))] ∧
    childNames constructTrace "Show Floor" =
      [some "King Monkey", some "Left Pillar", some "Right Pillar", some "Left Flame",
       some "Right Flame"] := by
  obtain ⟨hsame, hsix, hboth, htable⟩ := constructTrace_render_components
  refine ⟨hsame, hsix, ?_, ?_, ?_, htable, constructTrace_family_names.1⟩
  · intro p hp
    have h := List.all_eq_true.mp hboth p hp
    rw [Bool.and_eq_true] at h
    exact ⟨Option.isSome_iff_exists.mp h.1, Option.isSome_iff_exists.mp h.2⟩
  · intro i r mesh hi
    exact forall_index_of_allIndexed constructTrace (usesEarlierAsset constructTrace)
      constructTrace_uses_earlier_assets i _ hi
  · intro i r material hi
    exact forall_index_of_allIndexed constructTrace (usesEarlierAsset constructTrace)
      constructTrace_uses_earlier_assets i _ hi

/-! ## Lights -/

/-- A call that is not a call on `Lights` leaves the vector as it is. -/
theorem stepLights_of_not_lightOp {α : Type} (scene : Handle) (d : Light α) (v : List (Light α))
    (e : Effect) (h : e.isLightOp = false) : stepLights scene d v e = some v := by
  cases e <;> first | rfl | simp [Effect.isLightOp] at h

/-- Only the calls on `Lights` matter for the vector. -/
theorem runLights_filter {α : Type} (scene : Handle) (d : Light α) :
    ∀ (calls : List Effect) (v : List (Light α)),
      runLights scene d (calls.filter Effect.isLightOp) v = runLights scene d calls v
  | [], _ => rfl
  | e :: rest, v => by
      cases h : e.isLightOp
      · rw [List.filter_cons_of_neg (by simp [h])]
        simp only [runLights, stepLights_of_not_lightOp scene d v e h]
        exact runLights_filter scene d rest v
      · rw [List.filter_cons_of_pos h]
        simp only [runLights]
        cases stepLights scene d v e with
        | none => rfl
        | some v1 => exact runLights_filter scene d rest v1

set_option maxRecDepth 100000 in
/-- The calls on `Lights` of the construct path, all made before the scene is saved. -/
theorem constructTrace_light_ops :
    constructTrace.filter Effect.isLightOp =
      [.LightsResize 23 1, .LightSetPosition 23 0 ⟨0, 1000, 3000⟩,
       .LightSetColor 23 0 ⟨1000, 1000, 1000⟩, .LightSetRange 23 0 100000] ∧
    (callsBefore Effect.isSave constructTrace).filter Effect.isLightOp =
      constructTrace.filter Effect.isLightOp ∧
    Effect.MakeScene 23 ∈ constructTrace ∧
    Effect.Save 23 "scene.json" ∈ constructTrace := by
  decide!

/-- C10: the calls on `scene->Lights` are `resize(1)` first and then three assignments, each
through index 0, on the scene the routine made and saves.  Whatever vector of lights the `Scene`
constructor left and whatever a default-constructed light is, no access is out of bounds and the
vector at the time of the save has exactly one light, with position (0, 1, 3), colour (1, 1, 1)
and range 100 (in thousandths: 1000, 3000, 100000). -/
theorem C10_lights_in_bounds_one_light (α : Type) (d : Light α) (init : List (Light α)) :
    ∃ scene,
      Effect.MakeScene scene ∈ constructTrace ∧
      Effect.Save scene "scene.json" ∈ constructTrace ∧
      constructTrace.filter Effect.isLightOp =
        [.LightsResize scene 1, .LightSetPosition scene 0 ⟨0, 1000, 3000⟩,
         .LightSetColor scene 0 ⟨1000, 1000, 1000⟩, .LightSetRange scene 0 100000] ∧
      ∃ light,
        runLights scene d (callsBefore Effect.isSave constructTrace) init = some [light] ∧
        light.Position = ⟨0, 1000, 3000⟩ ∧
        light.Color = ⟨1000, 1000, 1000⟩ ∧
        light.Range = 100000 := by
  obtain ⟨hops, hbefore, hmade, hsaved⟩ := constructTrace_light_ops
  refine ⟨23, hmade, hsaved, hops, ?_⟩
  rw [← runLights_filter, hbefore, hops]
  cases init with
  | nil =>
      exact ⟨{ d with Position := ⟨0, 1000, 3000⟩, Color := ⟨1000, 1000, 1000⟩, Range := 100000 },
        by simp [runLights, stepLights, resize, assignAt], rfl, rfl, rfl⟩
  | cons first others =>
      exact ⟨{ first with Position := ⟨0, 1000, 3000⟩, Color := ⟨1000, 1000, 1000⟩,
                          Range := 100000 },
        by simp [runLights, stepLights, resize, assignAt], rfl, rfl, rfl⟩

end DefaultSceneLayer
